import Mathlib

/-!
Verification of the image batch-resizer (`src/main.py`).

The embedding below translates the program's core functions into Lean:
* `scaledDims` / `resize_image`  — `resize_image` (main.py lines 22–35);
* `process_image_body` / `process_image` — `process_image` (lines 37–53),
  with the `try/except` modelled as `Except` plus `Except.toOption`;
* `processFiles` — the walk-and-submit loop shared by
  `extract_and_process_images` (lines 59–66) and the directory branch of
  `process_images` (lines 76–83); results are collected in submission
  order, which `ThreadPoolExecutor` + in-order `future.result()` gives;
* `process_images` (lines 69–86) over an abstract classification of the
  input path;
* `process_images_fs` / `extract_and_process_images_fs` — the same code
  with the filesystem effects of `tempfile.TemporaryDirectory` (create on
  entry, remove the whole tree on every exit) made explicit.

Modelling conventions:
* Filesystem paths are lists of components (`List String`);
  `os.path.basename` is the last component, `os.path.join folder name`
  appends a component, and the textual path is the components joined
  by "/".
* Python float division `img.width / img.height` is modelled by exact
  rational arithmetic; `int(x)` on a nonnegative float truncates, i.e.
  takes the floor, so `int(new_width / aspect_ratio)` is the natural
  floor division `(outW * h) / w` (and symmetrically in the other
  branch).
* Pillow's `Image.resize` raises `ValueError` ("height and width must
  be > 0") when a target dimension is < 1, which the truncation can
  produce for extreme aspect ratios; `resize_image` therefore returns
  `Option`, `none` standing for that raised exception.
* `Image.open` on an undecodable file raises; a source file is modelled
  with its decode outcome (`Option Img`).
-/

/-- A decoded raster image: only its pixel dimensions matter to the
resize arithmetic. -/
structure Img where
  width : Nat
  height : Nat
deriving DecidableEq, Repr

/-- The default `output_size=(2500, 2500)` of `resize_image` and
`process_image` (main.py lines 22 and 37). -/
def defaultSize : Nat × Nat := (2500, 2500)

/-- Lines 23–29 of main.py: the target dimensions of the scaled content.
`aspect_ratio = width / height`; the comparison `aspect_ratio > 1` holds
exactly when `width > height`, and `int` of the nonnegative float result
is the floor, i.e. natural floor division. -/
def scaledDims (w h : Nat) (outW outH : Nat) : Nat × Nat :=
  if h < w then
    (outW, outW * h / w)
  else
    (outH * w / h, outH)

/-- The canvas returned by `resize_image`: a fresh `outW × outH` image in
the given mode filled with the background colour, with the scaled content
pasted at `offset`. -/
structure Canvas where
  width : Nat
  height : Nat
  contentWidth : Nat
  contentHeight : Nat
  offsetX : Nat
  offsetY : Nat
  mode : String
  bg : Nat × Nat × Nat
deriving DecidableEq, Repr

/-- Lines 22–35 of main.py (`resize_image`): compute the scaled
dimensions, scale (`img.resize`, which raises — here `none` — when a
target dimension is 0), allocate a white RGB canvas of `output_size`,
and paste centred with floor-division offsets. -/
def resize_image (img : Img) (output_size : Nat × Nat) : Option Canvas :=
  let nd := scaledDims img.width img.height output_size.1 output_size.2
  if nd.1 = 0 ∨ nd.2 = 0 then
    none
  else
    some { width := output_size.1
           height := output_size.2
           contentWidth := nd.1
           contentHeight := nd.2
           offsetX := (output_size.1 - nd.1) / 2
           offsetY := (output_size.2 - nd.2) / 2
           mode := "RGB"
           bg := (255, 255, 255) }

/-- Margin between the left canvas edge and the pasted content. -/
def leftMargin (c : Canvas) : Nat := c.offsetX

/-- Margin between the pasted content and the right canvas edge. -/
def rightMargin (c : Canvas) : Nat := c.width - c.contentWidth - c.offsetX

/-- Margin between the top canvas edge and the pasted content. -/
def topMargin (c : Canvas) : Nat := c.offsetY

/-- Margin between the pasted content and the bottom canvas edge. -/
def botMargin (c : Canvas) : Nat := c.height - c.contentHeight - c.offsetY

/-- Follows the words of claim C3 only (not the source): rounding the
nonnegative rational `num / den` to the nearest integer, ties to even as
Python's built-in `round` does.  The source instead applies `int`, which
truncates. -/
def pyRound (num den : Nat) : Nat :=
  let q := num / den
  let r := num % den
  if 2 * r < den then q
  else if den < 2 * r then q + 1
  else if q % 2 = 0 then q else q + 1

/-- Follows the words of claim C3 only (not the source): the scaled
dimensions computed with round-to-nearest in place of truncation. -/
def roundScaledDims (w h : Nat) (outW outH : Nat) : Nat × Nat :=
  if h < w then
    (outW, pyRound (outW * h) w)
  else
    (pyRound (outH * w) h, outH)

/-! ### Resizer lemmas -/

lemma scaledDims_pos (w h : Nat) (hw : 0 < w) (hh : 0 < h)
    (hwa : w ≤ 2500 * h) (hha : h ≤ 2500 * w) :
    0 < (scaledDims w h 2500 2500).1 ∧ 0 < (scaledDims w h 2500 2500).2 := by
  by_cases hlt : h < w
  · simp only [scaledDims, if_pos hlt]
    exact ⟨by omega, (Nat.one_le_div_iff hw).2 hwa⟩
  · simp only [scaledDims, if_neg hlt]
    exact ⟨(Nat.one_le_div_iff hh).2 hha, by omega⟩

lemma scaledDims_le (w h : Nat) (hw : 0 < w) (hh : 0 < h) :
    (scaledDims w h 2500 2500).1 ≤ 2500 ∧ (scaledDims w h 2500 2500).2 ≤ 2500 := by
  by_cases hlt : h < w
  · simp only [scaledDims, if_pos hlt]
    exact ⟨le_refl _, Nat.div_le_of_le_mul (by omega)⟩
  · simp only [scaledDims, if_neg hlt]
    exact ⟨Nat.div_le_of_le_mul (by omega), le_refl _⟩

lemma resize_defaultSize_eq (w h : Nat) (hw : 0 < w) (hh : 0 < h)
    (hwa : w ≤ 2500 * h) (hha : h ≤ 2500 * w) :
    resize_image ⟨w, h⟩ defaultSize = some
      { width := 2500
        height := 2500
        contentWidth := (scaledDims w h 2500 2500).1
        contentHeight := (scaledDims w h 2500 2500).2
        offsetX := (2500 - (scaledDims w h 2500 2500).1) / 2
        offsetY := (2500 - (scaledDims w h 2500 2500).2) / 2
        mode := "RGB"
        bg := (255, 255, 255) } := by
  have hpos := scaledDims_pos w h hw hh hwa hha
  simp only [resize_image, defaultSize]
  rw [if_neg (by omega)]

/-- Claim C2: wider-than-tall sources scale to full canvas width with
height at most the canvas height; sources with `height ≥ width`
(squares included, via the strict `>` comparison falling to the else
branch) scale to full canvas height with width at most the canvas
width. -/
theorem c2_scaled_fit (w h : Nat) (hw : 0 < w) (hh : 0 < h) :
    (h < w → (scaledDims w h 2500 2500).1 = 2500 ∧ (scaledDims w h 2500 2500).2 ≤ 2500) ∧
    (w ≤ h → (scaledDims w h 2500 2500).2 = 2500 ∧ (scaledDims w h 2500 2500).1 ≤ 2500) := by
  refine ⟨fun hlt => ?_, fun hle => ?_⟩
  · simp only [scaledDims, if_pos hlt]
    exact ⟨trivial, Nat.div_le_of_le_mul (by omega)⟩
  · have hnlt : ¬ h < w := by omega
    simp only [scaledDims, if_neg hnlt]
    exact ⟨trivial, Nat.div_le_of_le_mul (by omega)⟩

/-- Witness for `c2_scaled_fit` at the concrete 5×3 image. -/
theorem c2_scaled_fit_witness :
    (scaledDims 5 3 2500 2500).1 = 2500 ∧ (scaledDims 5 3 2500 2500).2 ≤ 2500 :=
  (c2_scaled_fit 5 3 (by decide) (by decide)).1 (by decide)

/-- Claim C1 counterexample: the 1×5000 source (positive dimensions) has
its scaled width truncated to 0, so `Image.resize` raises and no
canvas-sized image is returned. -/
theorem c1_counterexample :
    resize_image ⟨1, 5000⟩ defaultSize = none ∧
    scaledDims 1 5000 2500 2500 = (0, 2500) := by
  exact ⟨rfl, rfl⟩

/-- Claim C1 (amended: the input's aspect ratio must also be within the
canvas ratio, `w ≤ 2500·h` and `h ≤ 2500·w`, otherwise the truncated
scaled dimension is 0 and the resize raises): the result is a
2500×2500 RGB canvas, the content and its margins tile each axis, and
opposite margins differ by at most one pixel. -/
theorem c1_canvas_centered (w h : Nat) (hw : 0 < w) (hh : 0 < h)
    (hwa : w ≤ 2500 * h) (hha : h ≤ 2500 * w) :
    ∃ c, resize_image ⟨w, h⟩ defaultSize = some c ∧
      c.width = 2500 ∧ c.height = 2500 ∧ c.mode = "RGB" ∧
      c.contentWidth + leftMargin c + rightMargin c = 2500 ∧
      c.contentHeight + topMargin c + botMargin c = 2500 ∧
      leftMargin c ≤ rightMargin c + 1 ∧ rightMargin c ≤ leftMargin c + 1 ∧
      topMargin c ≤ botMargin c + 1 ∧ botMargin c ≤ topMargin c + 1 := by
  have hle := scaledDims_le w h hw hh
  refine ⟨_, resize_defaultSize_eq w h hw hh hwa hha, rfl, rfl, rfl, ?_, ?_, ?_, ?_, ?_, ?_⟩ <;>
    simp only [leftMargin, rightMargin, topMargin, botMargin] <;> omega

/-- Witness for `c1_canvas_centered` at the concrete 4×3 image. -/
theorem c1_canvas_centered_witness :
    ∃ c, resize_image ⟨4, 3⟩ defaultSize = some c ∧
      c.width = 2500 ∧ c.height = 2500 ∧ c.mode = "RGB" ∧
      c.contentWidth + leftMargin c + rightMargin c = 2500 ∧
      c.contentHeight + topMargin c + botMargin c = 2500 ∧
      leftMargin c ≤ rightMargin c + 1 ∧ rightMargin c ≤ leftMargin c + 1 ∧
      topMargin c ≤ botMargin c + 1 ∧ botMargin c ≤ topMargin c + 1 :=
  c1_canvas_centered 4 3 (by decide) (by decide) (by decide) (by decide)

/-- Claim C3 counterexample: for a 3×2 source the code computes
`int(2500 / 1.5) = 1666`, while rounding to nearest as the claim states
gives `1667`. -/
theorem c3_counterexample :
    scaledDims 3 2 2500 2500 = (2500, 1666) ∧
    roundScaledDims 3 2 2500 2500 = (2500, 1667) ∧
    (scaledDims 3 2 2500 2500).2 ≠ (roundScaledDims 3 2 2500 2500).2 := by
  decide

/-- Claim C3 (amended: the scaled dimension is obtained by truncation —
the floor, for these nonnegative values — of the exact ratio, not by
rounding to nearest): if `aspect > 1` then
`newHeight = ⌊canvasWidth / aspect⌋`, otherwise
`newWidth = ⌊canvasHeight * aspect⌋`. -/
theorem c3_truncation (w h : Nat) (hw : 0 < w) (hh : 0 < h) :
    (h < w → (scaledDims w h 2500 2500).2 = ⌊(2500 : ℚ) / ((w : ℚ) / (h : ℚ))⌋₊) ∧
    (w ≤ h → (scaledDims w h 2500 2500).1 = ⌊(2500 : ℚ) * ((w : ℚ) / (h : ℚ))⌋₊) := by
  refine ⟨fun hlt => ?_, fun hle => ?_⟩
  · simp only [scaledDims, if_pos hlt]
    rw [div_div_eq_mul_div]
    have hc : (2500 : ℚ) * (h : ℚ) = ((2500 * h : ℕ) : ℚ) := by push_cast; ring
    rw [hc, Nat.floor_div_eq_div]
  · have hnlt : ¬ h < w := by omega
    simp only [scaledDims, if_neg hnlt]
    rw [mul_div_assoc']
    have hc : (2500 : ℚ) * (w : ℚ) = ((2500 * w : ℕ) : ℚ) := by push_cast; ring
    rw [hc, Nat.floor_div_eq_div]

/-- Witness for `c3_truncation` at the concrete 3×2 image. -/
theorem c3_truncation_witness :
    (scaledDims 3 2 2500 2500).2 = ⌊(2500 : ℚ) / (((3 : Nat) : ℚ) / ((2 : Nat) : ℚ))⌋₊ :=
  (c3_truncation 3 2 (by decide) (by decide)).1 (by decide)

/-- Claim C4 counterexample: the 5000×1 source (positive dimensions)
makes the resize fail — the truncated scaled height is 0 and
`Image.resize` raises `ValueError` on a non-positive target size. -/
theorem c4_counterexample :
    (resize_image ⟨5000, 1⟩ defaultSize).isSome = false ∧
    scaledDims 5000 1 2500 2500 = (2500, 0) := by
  exact ⟨rfl, rfl⟩

/-- Claim C4 (amended: resize does not fail provided the truncated
scaled dimensions stay positive, i.e. `w ≤ 2500·h` and `h ≤ 2500·w`;
beyond that ratio the scaled size truncates to 0 and the underlying
resize raises). -/
theorem c4_resize_total (w h : Nat) (hw : 0 < w) (hh : 0 < h)
    (hwa : w ≤ 2500 * h) (hha : h ≤ 2500 * w) :
    (resize_image ⟨w, h⟩ defaultSize).isSome = true := by
  rw [resize_defaultSize_eq w h hw hh hwa hha]
  rfl

/-- Witness for `c4_resize_total` at the concrete 3×4 image. -/
theorem c4_resize_total_witness :
    (resize_image ⟨3, 4⟩ defaultSize).isSome = true :=
  c4_resize_total 3 4 (by decide) (by decide) (by decide) (by decide)

/-! ### Per-file pipeline and batch runner -/

/-- The last path component, `os.path.basename` on a "/"-joined path. -/
def basename (p : List String) : String := p.getLastD ""

/-- The textual form of a path, components joined by "/". -/
def pathString (p : List String) : String := String.intercalate "/" p

/-- Python's `str.lower` (the strings compared here are ASCII). -/
def pyLower (s : String) : String := ⟨s.data.map Char.toLower⟩

/-- Python's `str.endswith`. -/
def pyEndsWith (s post : String) : Bool := post.data.isSuffixOf s.data

/-- Line 72 of main.py: `input_path.lower().endswith(('.zip', '.rar'))`. -/
def archiveExt (s : String) : Bool :=
  pyEndsWith (pyLower s) ".zip" || pyEndsWith (pyLower s) ".rar"

/-- A file handed to the pipeline: its path and the outcome of
`Image.open` on it (`none` when the file is not a decodable image and
`Image.open` raises). -/
structure SrcFile where
  path : List String
  image : Option Img
deriving DecidableEq, Repr

/-- The encodings `img_resized.save` is called with (lines 42–47). -/
inductive OutputFormat
  | jpeg
  | png
  | webp
deriving DecidableEq, Repr

/-- A file written by `process_image`: the destination path the Python
function returns, together with the encoding passed to `save`. -/
structure OutFile where
  path : List String
  encoding : OutputFormat
deriving DecidableEq, Repr

/-- The exceptions the program can raise. -/
inductive PyError
  | decodeError (path : List String)
  | resizeError
  | unsupportedFormat (fmt : String)
  | badArchive
  | invalidInput
deriving DecidableEq, Repr

/-- Lines 42–47 of main.py: the case-insensitive three-way match on the
output format; `none` is the final `else` raising `ValueError` (line 49). -/
def parseFormat (s : String) : Option OutputFormat :=
  if pyLower s = "jpg" then some .jpeg
  else if pyLower s = "png" then some .png
  else if pyLower s = "webp" then some .webp
  else none

/-- Lines 38–49 of main.py, the body of the `try`: open the image
(decode may raise), resize it (may raise on a zero scaled dimension),
build the destination path `output_folder / basename(original_name)`,
and dispatch on the output format (unknown formats raise `ValueError`). -/
def process_image_body (f : SrcFile) (output_folder : List String)
    (output_format : String) (original_name : List String)
    (output_size : Nat × Nat) : Except PyError OutFile :=
  match f.image with
  | none => .error (.decodeError f.path)
  | some img =>
    match resize_image img output_size with
    | none => .error .resizeError
    | some _ =>
      let output_path := output_folder ++ [basename original_name]
      match parseFormat output_format with
      | some fmt => .ok ⟨output_path, fmt⟩
      | none => .error (.unsupportedFormat output_format)

/-- Lines 37–53 of main.py (`process_image`): the body wrapped in
`try/except` — every exception is logged and turned into `None`. -/
def process_image (f : SrcFile) (output_folder : List String)
    (output_format : String) (original_name : List String)
    (output_size : Nat × Nat) : Option OutFile :=
  (process_image_body f output_folder output_format original_name output_size).toOption

/-- The submit-and-collect loop of lines 59–66 and 76–83: every file is
processed independently (both call sites pass the file's own path as
`original_name` and leave `output_size` at its default), results are
gathered in submission order, and `None` results are dropped
(`if result:`). -/
def processFiles (files : List SrcFile) (output_folder : List String)
    (output_format : String) : List (List String) :=
  files.filterMap fun f =>
    (process_image f output_folder output_format f.path defaultSize).map OutFile.path

/-- Line 74 of main.py builds a `zipfile.ZipFile`; the handle is modelled
by the outcome of extracting it (line 58, `extractall`): either the
extracted entries or the exception `extractall` raises. -/
structure ZipHandle where
  extraction : Except PyError (List SrcFile)

/-- The classification of `input_path` that lines 72–85 perform:
a regular file (with the outcome of `zipfile.ZipFile` on it), a
directory (with the regular files `os.walk` finds under it), or
anything else. -/
inductive InputPath
  | file (path : List String) (opened : Except PyError ZipHandle)
  | dir (path : List String) (files : List SrcFile)
  | other (path : List String)

/-- Lines 55–67 of main.py (`extract_and_process_images`) without the
filesystem effects: extract the archive into a temporary directory and
run the per-file loop over every extracted file. -/
def extract_and_process_images (z : ZipHandle) (output_folder : List String)
    (output_format : String) : Except PyError (List (List String)) :=
  match z.extraction with
  | .error e => .error e
  | .ok files => .ok (processFiles files output_folder output_format)

/-- Lines 69–86 of main.py (`process_images`): classify the input path;
archives go through extraction, directories through the walk loop,
anything else raises `ValueError` ("La entrada debe ser un archivo ZIP,
RAR o una carpeta") before any task is submitted. -/
def process_images (input : InputPath) (output_folder : List String)
    (output_format : String) : Except PyError (List (List String)) :=
  match input with
  | .file p opened =>
    if archiveExt (pathString p) then
      match opened with
      | .error e => .error e
      | .ok z => extract_and_process_images z output_folder output_format
    else .error .invalidInput
  | .dir _ files => .ok (processFiles files output_folder output_format)
  | .other _ => .error .invalidInput

/-- A file is benign for the resizer: either it does not decode at all,
or its decoded image resizes without raising. -/
def resizeSafe (f : SrcFile) : Bool :=
  match f.image with
  | none => true
  | some img => (resize_image img defaultSize).isSome

/-! ### Per-file pipeline lemmas -/

lemma process_image_some_iff (f : SrcFile) (folder : List String) (fmt : String)
    (hfmt : (parseFormat fmt).isSome = true) (hres : resizeSafe f = true) :
    (process_image f folder fmt f.path defaultSize).isSome = f.image.isSome := by
  cases hi : f.image with
  | none => simp [process_image, process_image_body, hi, Except.toOption]
  | some img =>
    have hr : (resize_image img defaultSize).isSome = true := by
      simpa [resizeSafe, hi] using hres
    cases hri : resize_image img defaultSize with
    | none => rw [hri] at hr; simp at hr
    | some c =>
      cases hpf : parseFormat fmt with
      | none => rw [hpf] at hfmt; simp at hfmt
      | some fm => simp [process_image, process_image_body, hi, hri, hpf, Except.toOption]

lemma process_image_none_of_badfmt (f : SrcFile) (folder : List String) (fmt : String)
    (orig : List String) (hfmt : parseFormat fmt = none) :
    process_image f folder fmt orig defaultSize = none := by
  cases hi : f.image with
  | none => simp [process_image, process_image_body, hi, Except.toOption]
  | some img =>
    cases hri : resize_image img defaultSize with
    | none => simp [process_image, process_image_body, hi, hri, Except.toOption]
    | some c => simp [process_image, process_image_body, hi, hri, hfmt, Except.toOption]

lemma processFiles_length (folder : List String) (fmt : String)
    (hfmt : (parseFormat fmt).isSome = true) :
    ∀ files : List SrcFile, files.all resizeSafe = true →
      (processFiles files folder fmt).length
        = (files.filter (fun f => f.image.isSome)).length := by
  intro files
  induction files with
  | nil => intro _; rfl
  | cons f fs ih =>
    intro hres
    rw [List.all_cons, Bool.and_eq_true] at hres
    have hf := process_image_some_iff f folder fmt hfmt hres.1
    have ihh := ih hres.2
    cases hpi : process_image f folder fmt f.path defaultSize with
    | none =>
      have himg : f.image.isSome = false := by rw [← hf, hpi]; rfl
      simp only [processFiles, List.filterMap_cons, hpi, Option.map_none',
        List.filter_cons, himg, Bool.false_eq_true, if_false]
      simpa [processFiles] using ihh
    | some o =>
      have himg : f.image.isSome = true := by rw [← hf, hpi]; rfl
      simp only [processFiles, List.filterMap_cons, hpi, Option.map_some',
        List.filter_cons, himg, if_true, List.length_cons]
      simpa [processFiles] using ihh

/-! ### Batch-level theorems -/

/-- Claim C5: undecodable files are caught per task — the failure
carries the source path, the task yields `None` instead of raising —
and a directory batch of decodable images plus undecodable files
returns `ok` with exactly one success per decodable file. -/
theorem c5_decode_isolated (p folder : List String) (fmt : String) (files : List SrcFile)
    (hfmt : (parseFormat fmt).isSome = true) (hres : files.all resizeSafe = true) :
    process_images (.dir p files) folder fmt = .ok (processFiles files folder fmt) ∧
    (∀ f ∈ files, f.image = none →
      process_image_body f folder fmt f.path defaultSize = .error (.decodeError f.path) ∧
      process_image f folder fmt f.path defaultSize = none) ∧
    (processFiles files folder fmt).length
      = (files.filter (fun f => f.image.isSome)).length := by
  refine ⟨rfl, ?_, processFiles_length folder fmt hfmt files hres⟩
  intro f hf hi
  exact ⟨by simp [process_image_body, hi], by simp [process_image, process_image_body, hi, Except.toOption]⟩

/-- Witness for `c5_decode_isolated`: one decodable image and one
undecodable file give exactly one success, and the undecodable file's
task fails with its source path without raising. -/
theorem c5_decode_isolated_witness :
    process_images (.dir ["c"] [⟨["c", "a.png"], some ⟨4, 3⟩⟩, ⟨["c", "b.txt"], none⟩]) ["out"] "jpg"
      = .ok (processFiles [⟨["c", "a.png"], some ⟨4, 3⟩⟩, ⟨["c", "b.txt"], none⟩] ["out"] "jpg") ∧
    process_image_body ⟨["c", "b.txt"], none⟩ ["out"] "jpg" ["c", "b.txt"] defaultSize
      = .error (.decodeError ["c", "b.txt"]) ∧
    process_image ⟨["c", "b.txt"], none⟩ ["out"] "jpg" ["c", "b.txt"] defaultSize = none ∧
    (processFiles [⟨["c", "a.png"], some ⟨4, 3⟩⟩, ⟨["c", "b.txt"], none⟩] ["out"] "jpg").length
      = (([⟨["c", "a.png"], some ⟨4, 3⟩⟩, ⟨["c", "b.txt"], none⟩] : List SrcFile).filter
          (fun f => f.image.isSome)).length := by
  have h := c5_decode_isolated ["c"] ["out"] "jpg"
    [⟨["c", "a.png"], some ⟨4, 3⟩⟩, ⟨["c", "b.txt"], none⟩] (by decide) (by decide)
  have h2 := h.2.1 ⟨["c", "b.txt"], none⟩ (by decide) rfl
  exact ⟨h.1, h2.1, h2.2, h.2.2⟩

/-- Claim C6 counterexample: in a batch run with the unsupported format
"bmp", a task whose file does not decode fails with the decode reason,
not with an unsupported-format reason. -/
theorem c6_counterexample :
    process_image_body ⟨["rota.txt"], none⟩ ["out"] "bmp" ["rota.txt"] defaultSize
      = .error (.decodeError ["rota.txt"]) ∧
    PyError.decodeError ["rota.txt"] ≠ PyError.unsupportedFormat "bmp" := by
  exact ⟨rfl, by decide⟩

/-- Claim C6 (amended: with an output format matching none of
jpg/png/webp, the format is not validated up front — every task fails
individually, the decodable-and-resizable ones with the
unsupported-format reason and the undecodable ones with their decode
reason — the batch returns zero successes and raises nothing). -/
theorem c6_unsupported_format (p folder : List String) (fmt : String) (files : List SrcFile)
    (hfmt : parseFormat fmt = none) :
    process_images (.dir p files) folder fmt = .ok [] ∧
    (∀ f ∈ files, process_image f folder fmt f.path defaultSize = none) ∧
    (∀ f ∈ files, ∀ img, f.image = some img → (resize_image img defaultSize).isSome = true →
      process_image_body f folder fmt f.path defaultSize = .error (.unsupportedFormat fmt)) := by
  refine ⟨?_, fun f hf => process_image_none_of_badfmt f folder fmt f.path hfmt, ?_⟩
  · have hnil : processFiles files folder fmt = [] := by
      apply List.filterMap_eq_nil_iff.mpr
      intro f hf
      rw [process_image_none_of_badfmt f folder fmt f.path hfmt]
      rfl
    simp [process_images, hnil]
  · intro f hf img hi hr
    cases hri : resize_image img defaultSize with
    | none => rw [hri] at hr; simp at hr
    | some c => simp [process_image_body, hi, hri, hfmt]

/-- Witness for `c6_unsupported_format` with format "bmp" over one
decodable file, checking the unsupported-format reason on it. -/
theorem c6_unsupported_format_witness :
    process_images (.dir ["c"] [⟨["c", "a.png"], some ⟨4, 3⟩⟩]) ["out"] "bmp" = .ok [] ∧
    process_image ⟨["c", "a.png"], some ⟨4, 3⟩⟩ ["out"] "bmp" ["c", "a.png"] defaultSize = none ∧
    process_image_body ⟨["c", "a.png"], some ⟨4, 3⟩⟩ ["out"] "bmp" ["c", "a.png"] defaultSize
      = .error (.unsupportedFormat "bmp") := by
  have h := c6_unsupported_format ["c"] ["out"] "bmp" [⟨["c", "a.png"], some ⟨4, 3⟩⟩] (by decide)
  exact ⟨h.1, h.2.1 _ (by decide), h.2.2 _ (by decide) ⟨4, 3⟩ rfl (by decide)⟩

/-- Claim C7: an input path that is neither a regular file named
`*.zip`/`*.rar` (case-insensitively) nor a directory makes the whole
batch fail immediately with the invalid-input `ValueError`; no task
runs and no success is returned. -/
theorem c7_invalid_input (folder : List String) (fmt : String) :
    (∀ p opened, archiveExt (pathString p) = false →
      process_images (.file p opened) folder fmt = .error .invalidInput) ∧
    (∀ p, process_images (.other p) folder fmt = .error .invalidInput) := by
  refine ⟨fun p opened hna => ?_, fun p => rfl⟩
  simp [process_images, hna]

/-- Witness for `c7_invalid_input`: a plain text file and a
nonexistent path both fail the whole batch up front. -/
theorem c7_invalid_input_witness :
    process_images (.file ["notas.txt"] (.error .badArchive)) ["out"] "jpg"
      = .error .invalidInput ∧
    process_images (.other ["nada"]) ["out"] "jpg" = .error .invalidInput :=
  ⟨(c7_invalid_input ["out"] "jpg").1 ["notas.txt"] (.error .badArchive) (by decide),
   (c7_invalid_input ["out"] "jpg").2 ["nada"]⟩

lemma process_image_success_eq (f : SrcFile) (folder : List String) (fmt : String)
    (orig : List String) (out : OutFile)
    (hp : process_image f folder fmt orig defaultSize = some out) :
    out.path = folder ++ [basename orig] ∧ parseFormat fmt = some out.encoding := by
  cases hi : f.image with
  | none => simp [process_image, process_image_body, hi, Except.toOption] at hp
  | some img =>
    cases hri : resize_image img defaultSize with
    | none => simp [process_image, process_image_body, hi, hri, Except.toOption] at hp
    | some c =>
      cases hpf : parseFormat fmt with
      | none => simp [process_image, process_image_body, hi, hri, hpf, Except.toOption] at hp
      | some fm =>
        simp [process_image, process_image_body, hi, hri, hpf, Except.toOption] at hp
        rw [← hp]
        exact ⟨rfl, rfl⟩

lemma basename_append (folder : List String) (b : String) :
    basename (folder ++ [b]) = b := by
  simp [basename]

/-- Claim C8: a successful task writes exactly to
`destination_folder / basename(source_path)` — the source tree is
flattened — so any two successes whose sources share a basename share
the one output path. -/
theorem c8_flattened_output (f : SrcFile) (folder : List String) (fmt : String) (out : OutFile)
    (hp : process_image f folder fmt f.path defaultSize = some out) :
    out.path = folder ++ [basename f.path] ∧
    (∀ f2 out2, process_image f2 folder fmt f2.path defaultSize = some out2 →
      basename f2.path = basename f.path → out2.path = out.path) := by
  have h1 := (process_image_success_eq f folder fmt f.path out hp).1
  refine ⟨h1, fun f2 out2 hp2 hb => ?_⟩
  have h2 := (process_image_success_eq f2 folder fmt f2.path out2 hp2).1
  rw [h1, h2, hb]

/-- Witness for `c8_flattened_output`: two sources named `foto.png` in
different folders (`a/` and `b/`, one 4×3 and one 3×4) both collapse
onto the single output path `out/foto.png`. -/
theorem c8_flattened_output_witness :
    (⟨["out", "foto.png"], OutputFormat.jpeg⟩ : OutFile).path
      = ["out"] ++ [basename ["a", "foto.png"]] ∧
    (⟨["out", "foto.png"], OutputFormat.jpeg⟩ : OutFile).path
      = (⟨["out", "foto.png"], OutputFormat.jpeg⟩ : OutFile).path := by
  have h := c8_flattened_output ⟨["a", "foto.png"], some ⟨4, 3⟩⟩ ["out"] "jpg"
    ⟨["out", "foto.png"], .jpeg⟩ (by decide)
  exact ⟨h.1, h.2 ⟨["b", "foto.png"], some ⟨3, 4⟩⟩ ⟨["out", "foto.png"], .jpeg⟩
    (by decide) (by decide)⟩

/-- Claim C10: the output filename, extension included, is exactly the
source filename whatever the chosen output format is; the format only
selects the encoding passed to `save` (e.g. `photo.png` processed with
"jpg" is written as `photo.png` with JPEG content). -/
theorem c10_filename_preserved (f : SrcFile) (folder : List String) (fmt : String) (out : OutFile)
    (hp : process_image f folder fmt f.path defaultSize = some out) :
    basename out.path = basename f.path ∧
    (pyLower fmt = "jpg" → out.encoding = .jpeg) ∧
    (pyLower fmt = "png" → out.encoding = .png) ∧
    (pyLower fmt = "webp" → out.encoding = .webp) := by
  obtain ⟨h1, h2⟩ := process_image_success_eq f folder fmt f.path out hp
  refine ⟨by rw [h1, basename_append], ?_, ?_, ?_⟩ <;> intro hl <;>
    · rw [parseFormat, hl] at h2
      simp at h2
      simp [← h2]

/-- Witness for `c10_filename_preserved`: `photo.png` processed with
format "jpg" keeps its name and is JPEG-encoded. -/
theorem c10_filename_preserved_witness :
    basename (["out", "photo.png"] : List String) = basename ["d", "photo.png"] ∧
    OutputFormat.jpeg = OutputFormat.jpeg := by
  have h := c10_filename_preserved ⟨["d", "photo.png"], some ⟨4, 3⟩⟩ ["out"] "jpg"
    ⟨["out", "photo.png"], .jpeg⟩ (by decide)
  exact ⟨h.1, h.2.1 (by decide)⟩

/-! ### Filesystem effects of the archive branch -/

/-- A snapshot of the filesystem: the collection of existing paths
(directories and files alike). -/
structure FS where
  paths : List (List String)

/-- Removing a directory tree: every path having `base` as a component
prefix disappears.  This is what `tempfile.TemporaryDirectory.__exit__`
does to the temporary directory on leaving the `with` block. -/
def removeTree (base : List String) (fs : FS) : FS :=
  ⟨fs.paths.filter (fun p => !(List.isPrefixOf base p))⟩

/-- Lines 55–67 of main.py with filesystem effects made explicit:
`tempfile.TemporaryDirectory()` creates the fresh directory `tempDir`;
`extractall` either raises or materialises the entries under `tempDir`;
the per-file loop writes its outputs; and leaving the `with` block —
normally or through the raise — removes the whole temporary tree. -/
def extract_and_process_images_fs (z : ZipHandle) (output_folder : List String)
    (output_format : String) (tempDir : List String) (fs : FS) :
    Except PyError (List (List String)) × FS :=
  let fs1 : FS := ⟨tempDir :: fs.paths⟩
  match z.extraction with
  | .error e => (.error e, removeTree tempDir fs1)
  | .ok files =>
    let afterExtract : FS := ⟨files.map (fun f => tempDir ++ f.path) ++ fs1.paths⟩
    let outs := processFiles files output_folder output_format
    let afterWrite : FS := ⟨outs ++ afterExtract.paths⟩
    (.ok outs, removeTree tempDir afterWrite)

/-- Lines 69–86 of main.py with filesystem effects: only the archive
branch creates (and afterwards removes) a temporary directory; the
directory branch just writes its outputs, and the invalid branch and a
failing `zipfile.ZipFile` open touch nothing. -/
def process_images_fs (input : InputPath) (output_folder : List String)
    (output_format : String) (tempDir : List String) (fs : FS) :
    Except PyError (List (List String)) × FS :=
  match input with
  | .file p opened =>
    if archiveExt (pathString p) then
      match opened with
      | .error e => (.error e, fs)
      | .ok z => extract_and_process_images_fs z output_folder output_format tempDir fs
    else (.error .invalidInput, fs)
  | .dir _ files =>
    let outs := processFiles files output_folder output_format
    (.ok outs, ⟨outs ++ fs.paths⟩)
  | .other _ => (.error .invalidInput, fs)

lemma removeTree_all (base : List String) (fs : FS) :
    (removeTree base fs).paths.all (fun q => !(List.isPrefixOf base q)) = true := by
  rw [List.all_eq_true]
  intro q hq
  simp only [removeTree] at hq
  exact (List.mem_filter.mp hq).2

/-- Claim C9: for every archive-input invocation, the temporary
extraction directory is gone from the filesystem when the batch
returns — on the success path, on a failed extraction, and on a failed
archive open (where it was never created) alike. -/
theorem c9_tempdir_removed (p : List String) (opened : Except PyError ZipHandle)
    (folder : List String) (fmt : String) (tempDir : List String) (fs : FS)
    (harch : archiveExt (pathString p) = true)
    (hfresh : fs.paths.all (fun q => !(List.isPrefixOf tempDir q)) = true) :
    ((process_images_fs (.file p opened) folder fmt tempDir fs).2.paths.all
      (fun q => !(List.isPrefixOf tempDir q))) = true := by
  simp only [process_images_fs, harch, if_true]
  cases opened with
  | error e => exact hfresh
  | ok z =>
    simp only [extract_and_process_images_fs]
    cases z.extraction with
    | error e => exact removeTree_all tempDir _
    | ok files => exact removeTree_all tempDir _

/-- Witness for `c9_tempdir_removed`: a zip with one image is extracted
to `tmp/t1`, processed, and the temporary tree is gone afterwards. -/
theorem c9_tempdir_removed_witness :
    ((process_images_fs
        (.file ["fotos.zip"] (.ok ⟨.ok [⟨["sub", "a.png"], some ⟨4, 3⟩⟩]⟩))
        ["out"] "jpg" ["tmp", "t1"] ⟨[["out"]]⟩).2.paths.all
      (fun q => !(List.isPrefixOf ["tmp", "t1"] q))) = true :=
  c9_tempdir_removed ["fotos.zip"] (.ok ⟨.ok [⟨["sub", "a.png"], some ⟨4, 3⟩⟩]⟩)
    ["out"] "jpg" ["tmp", "t1"] ⟨[["out"]]⟩ (by decide) (by decide)
